import Mathlib

/-!
Shallow embedding of the EFD client (`src/wirnnservice/domain/efd_utils.py`)
of the wirnn-service repository, together with theorems settling the spec's
claims about it.

Modelling conventions:
* JSON scalar values are the inductive `Value`; absent dictionary keys are
  `Option.none`; `series.get("values", [])` is `Option.getD`.
* `pandas.DataFrame` is the record `DataFrame`: an explicit row index, a
  column-label list, row-major cells, and an optional `name` attribute.
  `pd.to_datetime` applied to a cell is modelled by the constructor
  `Idx.time`, which records the raw cell it parses.
* Python exceptions are `Except PyError`; `PyError` keeps the exception
  class and message, and `runtimeError` keeps the `from e` cause.
* The network is a parameter: `HttpResult α` is either a transport-level
  failure (a `requests.RequestException` outside HTTP) or a response with
  a status code and an already-parsed body.
* `astropy.time.Time` values enter the query builder only through
  `start_time.utc.isot`; they are modelled by that ISO string.
-/

/-- A JSON scalar cell value. -/
inductive Value : Type
  | vStr (s : String)
  | vInt (n : Int)
  | vBool (b : Bool)
  | vNull
deriving DecidableEq, Repr

/-- Python exception classes raised by the client, with their message;
`runtimeError` also carries the `raise ... from e` cause when present. -/
inductive PyError : Type
  | indexError (msg : String)
  | keyError (msg : String)
  | valueError (msg : String)
  | runtimeError (msg : String) (cause : Option String)
deriving DecidableEq, Repr

/-- Outcome of an HTTP GET: a transport-level failure, or a response
with a status code and a parsed body. -/
inductive HttpResult (α : Type) : Type
  | transportError (msg : String)
  | response (status : Nat) (body : α)
deriving DecidableEq, Repr

/-- One entry of the `series` array of an InfluxDB-style query response:
`columns` (required key), and the optional keys `values`, `tags`, `name`. -/
structure Series : Type where
  columns : List String
  values : Option (List (List Value))
  tags : Option (List (String × Value))
  name : Option Value
deriving DecidableEq, Repr

/-- One entry of the `results` array; the code only ever reads its
optional `series` key. -/
structure ResultObj : Type where
  series : Option (List Series)
deriving DecidableEq, Repr

/-- A query response body: `{results: [...]}`. -/
structure QueryResponse : Type where
  results : List ResultObj
deriving DecidableEq, Repr

/-- A row-index entry of a dataframe: either a default positional index
entry (`range`) or a parsed timestamp (`pd.to_datetime` of a raw cell). -/
inductive Idx : Type
  | range (i : Nat)
  | time (v : Value)
deriving DecidableEq, Repr

/-- Model of `pandas.DataFrame`: row index, column labels, row-major
cells, and the optional `name` attribute the client attaches. -/
structure DataFrame : Type where
  index : List Idx
  columns : List String
  rows : List (List Value)
  name : Option Value
deriving DecidableEq, Repr

/-- The empty dataframe `pd.DataFrame()`. -/
def emptyFrame : DataFrame :=
  { index := [], columns := [], rows := [], name := none }

namespace EfdClient

/-- The fixed segwarides secrets endpoint of `_get_auth`. -/
def service_endpoint : String := "https://roundtable.lsst.codes/segwarides/"

/-- The URL `_get_auth` requests: `urljoin(service_endpoint, f"creds/{alias}")`. -/
def get_auth_url (instance_alias : String) : String :=
  service_endpoint ++ "creds/" ++ instance_alias

/-- `EfdClient._get_auth`: returns the parsed body on status 200, and raises
`RuntimeError(f"Could not connect to {url}")` on every other status. The
response is passed in as status plus parsed body. -/
def get_auth {α : Type} (instance_alias : String) (status : Nat) (body : α) :
    Except PyError α :=
  if status = 200 then
    Except.ok body
  else
    Except.error (PyError.runtimeError ("Could not connect to " ++ get_auth_url instance_alias) none)

/-- The message of `requests.Response.raise_for_status` for a 4xx/5xx
status: a client error below 500, a server error from 500. -/
def statusErrorMsg (status : Nat) : String :=
  if status < 500 then toString status ++ " Client Error"
  else toString status ++ " Server Error"

/-- `EfdClient.query`: issue the GET (modelled by the `net` argument) and
either return the parsed body, or wrap any `requests.RequestException`
(transport failure, or the `HTTPError` that `raise_for_status` raises
exactly when `400 ≤ status < 600`) in
`RuntimeError(f"Could not read data from database with query: {query}")`. -/
def query {α : Type} (q : String) (net : HttpResult α) : Except PyError α :=
  match net with
  | HttpResult.transportError msg =>
      Except.error (PyError.runtimeError
        ("Could not read data from database with query: " ++ q) (some msg))
  | HttpResult.response status body =>
      if 400 ≤ status ∧ status < 600 then
        Except.error (PyError.runtimeError
          ("Could not read data from database with query: " ++ q)
          (some (statusErrorMsg status)))
      else
        Except.ok body

/-- The dtype assigned to a field by `get_schema_dtypes`:
`np.float64`, `np.int64`, the string `"str"`, or the string `"object"`. -/
inductive Dtype : Type
  | dstr
  | dfloat64
  | dint64
  | dobject
deriving DecidableEq, Repr

/-- The `if/elif` chain of `get_schema_dtypes` mapping a raw field type to
a dtype: `"float" → np.float64`, `"integer" → np.int64`,
`"string" → "str"`, anything else → `"object"`. -/
def mapFieldType (t : Value) : Dtype :=
  if t = Value.vStr "float" then Dtype.dfloat64
  else if t = Value.vStr "integer" then Dtype.dint64
  else if t = Value.vStr "string" then Dtype.dstr
  else Dtype.dobject

/-- The tuple destructuring `for field_name, field_type in values`: each
row must have exactly two elements, otherwise a `ValueError` is raised at
the first offending row. -/
def unpackPairs : List (List Value) → Except PyError (List (Value × Value))
  | [] => Except.ok []
  | [n, t] :: rest => (unpackPairs rest).map (fun ps => (n, t) :: ps)
  | _ :: _ => Except.error (PyError.valueError "values to unpack")

/-- `EfdClient.get_schema_dtypes` after the query: descends into
`data["results"][0]["series"][0]["values"]` (raising `IndexError` /
`KeyError` where python would), then builds `[("time", "str")]` followed by
one `(field_name, dtype)` per raw entry. -/
def get_schema_dtypes (data : QueryResponse) : Except PyError (List (Value × Dtype)) :=
  match data.results.head? with
  | none => Except.error (PyError.indexError "list index out of range")
  | some r =>
    match r.series with
    | none => Except.error (PyError.keyError "series")
    | some ss =>
      match ss.head? with
      | none => Except.error (PyError.indexError "list index out of range")
      | some s =>
        match s.values with
        | none => Except.error (PyError.keyError "values")
        | some vals =>
          (unpackPairs vals).map (fun pairs =>
            (Value.vStr "time", Dtype.dstr) ::
              pairs.map (fun p => (p.1, mapFieldType p.2)))

/-- The cell of `row` under column label `k` (first occurrence), used to
model column extraction from a dataframe. -/
def lookupCell (cols : List String) (row : List Value) (k : String) : Value :=
  match (cols.zip row).find? (fun p => p.1 = k) with
  | some p => p.2
  | none => Value.vNull

/-- The values of column `k` of a dataframe, `none` when no such column. -/
def colValues (df : DataFrame) (k : String) : Option (List Value) :=
  if k ∈ df.columns then some (df.rows.map (fun row => lookupCell df.columns row k))
  else none

/-- `pd.DataFrame(series.get("values", []), columns=series["columns"])`:
the raw table, with the default positional row index and no name. -/
def initFrame (s : Series) : DataFrame :=
  let vals := s.values.getD []
  { index := (List.range vals.length).map Idx.range,
    columns := s.columns,
    rows := vals,
    name := none }

/-- `df.drop("time", axis=1)`: remove every column labelled `k` and the
corresponding cells of each row. -/
def dropCol (df : DataFrame) (k : String) : DataFrame :=
  { df with
    columns := df.columns.filter (fun c => ¬ c = k),
    rows := df.rows.map (fun row =>
      ((df.columns.zip row).filter (fun p => ¬ p.1 = k)).map (fun p => p.2)) }

/-- `df[k] = v` with a scalar `v`: overwrite every cell of an existing
column `k`, or append a new constant column `k`. -/
def setCol (df : DataFrame) (k : String) (v : Value) : DataFrame :=
  if k ∈ df.columns then
    { df with rows := df.rows.map (fun row =>
        (df.columns.zip row).map (fun p => if p.1 = k then v else p.2)) }
  else
    { df with
      columns := df.columns ++ [k],
      rows := df.rows.map (fun row => row ++ [v]) }

/-- `EfdClient.to_dataframe`: build the raw table; if it has no `"time"`
column return it as is; otherwise re-index by the parsed `"time"` column,
drop that column, broadcast each tag as a constant column, and attach the
series name when present. -/
def to_dataframe (s : Series) : DataFrame :=
  let data := initFrame s
  if "time" ∉ data.columns then data
  else
    let data :=
      { data with index := data.rows.map (fun row => Idx.time (lookupCell data.columns row "time")) }
    let data := dropCol data "time"
    let data :=
      match s.tags with
      | some ts => ts.foldl (fun d p => setCol d p.1 p.2) data
      | none => data
    match s.name with
    | some n => { data with name := some n }
    | none => data

/-- The query string built by `EfdClient.select_time_series`, with the
astropy times already rendered by `.utc.isot`. -/
def build_select_query (topic : String) (fields : Option (List String))
    (start_time end_time : Option String) (sal_index : Option Int) : String :=
  let query := "SELECT "
  let query := query ++ (match fields with
    | none => "*"
    | some fs => String.intercalate "," fs)
  let query := query ++ " FROM \"" ++ topic ++ "\""
  let query :=
    if start_time.isSome || end_time.isSome || sal_index.isSome then query ++ " WHERE"
    else query
  let query :=
    match start_time with
    | some st =>
        query ++ " time >= '" ++ st ++ "Z'" ++
          (match end_time with | some _ => " AND" | none => "")
    | none => query
  let query :=
    match end_time with
    | some et => query ++ " time <= '" ++ et ++ "Z'"
    | none => query
  let query :=
    match sal_index with
    | some si =>
        (if start_time.isSome || end_time.isSome then query ++ " AND" else query) ++
          " salIndex = " ++ toString si
    | none => query
  query

/-- The list of WHERE clauses the spec prescribes, in its fixed order,
one entry per provided parameter (each rendered with its leading space). -/
def where_clauses (start_time end_time : Option String) (sal_index : Option Int) :
    List String :=
  (match start_time with
    | some st => [" time >= '" ++ st ++ "Z'"]
    | none => []) ++
  (match end_time with
    | some et => [" time <= '" ++ et ++ "Z'"]
    | none => []) ++
  (match sal_index with
    | some si => [" salIndex = " ++ toString si]
    | none => [])

/-- The query string as the spec words it: the SELECT/FROM part, then
`WHERE` followed by the provided clauses joined by `AND`, only when at
least one clause is present. -/
def build_select_query_spec (topic : String) (fields : Option (List String))
    (start_time end_time : Option String) (sal_index : Option Int) : String :=
  "SELECT " ++ (match fields with
    | none => "*"
    | some fs => String.intercalate "," fs) ++
  " FROM \"" ++ topic ++ "\"" ++
  (if (where_clauses start_time end_time sal_index).isEmpty then ""
   else " WHERE" ++ String.intercalate " AND" (where_clauses start_time end_time sal_index))

/-- `EfdClient.select_time_series`: build the query, execute it (the
network modelled by `net`), take `results[0]`, return `pd.DataFrame()`
when it has no `series` key, otherwise convert `series[0]`. -/
def select_time_series (topic : String) (fields : Option (List String))
    (start_time end_time : Option String) (sal_index : Option Int)
    (net : HttpResult QueryResponse) : Except PyError DataFrame :=
  let q := build_select_query topic fields start_time end_time sal_index
  match query q net with
  | Except.error e => Except.error e
  | Except.ok data =>
    match data.results.head? with
    | none => Except.error (PyError.indexError "list index out of range")
    | some r =>
      match r.series with
      | none => Except.ok emptyFrame
      | some ss =>
        match ss.head? with
        | none => Except.error (PyError.indexError "list index out of range")
        | some s => Except.ok (to_dataframe s)

end EfdClient

/-- Unfolding of `String.intercalate` at a singleton. -/
theorem intercalate_one (s a : String) : String.intercalate s [a] = a := rfl

/-- Unfolding of `String.intercalate` at a two-element list. -/
theorem intercalate_two (s a b : String) : String.intercalate s [a, b] = a ++ s ++ b := rfl

/-- Unfolding of `String.intercalate` at a three-element list. -/
theorem intercalate_three (s a b c : String) :
    String.intercalate s [a, b, c] = a ++ s ++ b ++ s ++ c := rfl

/-- C7: with fields, start time, end time and salIndex all absent,
`select_time_series` builds exactly `SELECT * FROM "topic"`, the topic
double-quoted, and nothing more. -/
theorem claim_C7_select_star_query (topic : String) :
    EfdClient.build_select_query topic none none none none
      = "SELECT * FROM \"" ++ topic ++ "\"" := by
  simp [EfdClient.build_select_query, String.append_assoc]

/-- C2: the query built by `select_time_series` appends `WHERE` exactly when
at least one of start time, end time, salIndex is provided; it emits only the
clauses of provided parameters, in the fixed order start/end/salIndex, joined
by `AND` exactly between consecutive provided clauses (this is the equality
with `build_select_query_spec`); in particular with a start time and a
salIndex only, the query ends with
`WHERE time >= '<iso>Z' AND salIndex = <n>`. -/
theorem claim_C2_where_clause_assembly (topic : String) (fields : Option (List String))
    (start_time end_time : Option String) (sal_index : Option Int) :
    EfdClient.build_select_query topic fields start_time end_time sal_index
      = EfdClient.build_select_query_spec topic fields start_time end_time sal_index
    ∧ (EfdClient.where_clauses start_time end_time sal_index = []
        ↔ start_time = none ∧ end_time = none ∧ sal_index = none)
    ∧ (∀ (st : String) (si : Int),
        EfdClient.build_select_query topic fields (some st) none (some si)
          = "SELECT " ++ (match fields with
              | none => "*"
              | some fs => String.intercalate "," fs)
            ++ " FROM \"" ++ topic ++ "\" WHERE time >= '" ++ st
            ++ "Z' AND salIndex = " ++ toString si) := by
  refine ⟨?_, ?_, ?_⟩
  · cases start_time <;> cases end_time <;> cases sal_index <;>
      simp [-String.reduceAppend, EfdClient.build_select_query,
        EfdClient.build_select_query_spec, EfdClient.where_clauses,
        intercalate_one, intercalate_two, intercalate_three, String.append_assoc]
  · cases start_time <;> cases end_time <;> cases sal_index <;>
      simp [EfdClient.where_clauses]
  · intro st si
    simp [EfdClient.build_select_query, String.append_assoc]

/-- C4: when the response's `results[0]` has no `series` key,
`select_time_series` returns the empty dataframe, which has zero rows and
zero columns. -/
theorem claim_C4_no_series_empty_frame (topic : String) (fields : Option (List String))
    (start_time end_time : Option String) (sal_index : Option Int)
    (rest : List ResultObj) :
    EfdClient.select_time_series topic fields start_time end_time sal_index
        (HttpResult.response 200 ⟨{ series := none } :: rest⟩)
      = Except.ok emptyFrame
    ∧ emptyFrame.rows.length = 0 ∧ emptyFrame.columns.length = 0 := by
  refine ⟨?_, rfl, rfl⟩
  simp [EfdClient.select_time_series, EfdClient.query]

/-- C10: when `results[0]` carries a `series` key holding an empty list,
`select_time_series` does not return a table at all: the guard only tests
key absence, so indexing `series[0]` raises an `IndexError`. -/
theorem claim_C10_empty_series_list_index_error (topic : String)
    (fields : Option (List String)) (start_time end_time : Option String)
    (sal_index : Option Int) (rest : List ResultObj) :
    EfdClient.select_time_series topic fields start_time end_time sal_index
        (HttpResult.response 200 ⟨{ series := some [] } :: rest⟩)
      = Except.error (PyError.indexError "list index out of range")
    ∧ ∀ df : DataFrame,
        EfdClient.select_time_series topic fields start_time end_time sal_index
            (HttpResult.response 200 ⟨{ series := some [] } :: rest⟩)
          ≠ Except.ok df := by
  have h : EfdClient.select_time_series topic fields start_time end_time sal_index
      (HttpResult.response 200 ⟨{ series := some [] } :: rest⟩)
      = Except.error (PyError.indexError "list index out of range") := by
    simp [EfdClient.select_time_series, EfdClient.query]
  exact ⟨h, fun df hdf => by rw [h] at hdf; exact Except.noConfusion hdf⟩

/-- C5 counterexample: HTTP 304 is not a 2xx status, yet `query` returns the
parsed body instead of failing — `raise_for_status` only raises for
4xx/5xx, so the claim's "on any non-2xx status it fails" is false. -/
theorem claim_C5_counterexample :
    ¬ (200 ≤ 304 ∧ 304 < 300)
    ∧ EfdClient.query "SELECT 1" (HttpResult.response 304 (0 : Nat)) = Except.ok 0 :=
  ⟨by decide, rfl⟩

/-- C5 (amended): `query` returns the parsed body verbatim whenever the
status is outside 400–599 (so on every 2xx success), and on a transport
failure or any 4xx/5xx status it fails with a RuntimeError whose message
includes the original query string and which wraps the underlying cause. -/
theorem claim_C5_query_error_wrapping {α : Type} (q : String) (body : α) :
    (∀ status : Nat, ¬ (400 ≤ status ∧ status < 600) →
      EfdClient.query q (HttpResult.response status body) = Except.ok body)
    ∧ (∀ msg : String,
        EfdClient.query q (HttpResult.transportError msg : HttpResult α)
          = Except.error (PyError.runtimeError
              ("Could not read data from database with query: " ++ q) (some msg)))
    ∧ (∀ status : Nat, 400 ≤ status → status < 600 →
        EfdClient.query q (HttpResult.response status body)
          = Except.error (PyError.runtimeError
              ("Could not read data from database with query: " ++ q)
              (some (EfdClient.statusErrorMsg status)))) := by
  refine ⟨fun status h => ?_, fun msg => rfl, fun status h1 h2 => ?_⟩
  · simp [EfdClient.query, h]
  · simp [EfdClient.query, h1, h2]

/-- Witness for C5: a 204 response returns its body, a transport failure and
a 404 response are wrapped with the query string in the message. -/
theorem claim_C5_witness :
    EfdClient.query "SELECT 1" (HttpResult.response 204 (5 : Nat)) = Except.ok 5
    ∧ EfdClient.query "SELECT 1" (HttpResult.transportError "timeout" : HttpResult Nat)
        = Except.error (PyError.runtimeError
            ("Could not read data from database with query: " ++ "SELECT 1") (some "timeout"))
    ∧ EfdClient.query "SELECT 1" (HttpResult.response 404 (5 : Nat))
        = Except.error (PyError.runtimeError
            ("Could not read data from database with query: " ++ "SELECT 1")
            (some (EfdClient.statusErrorMsg 404))) :=
  ⟨(claim_C5_query_error_wrapping "SELECT 1" 5).1 204 (by decide),
   (claim_C5_query_error_wrapping "SELECT 1" 5).2.1 "timeout",
   (claim_C5_query_error_wrapping "SELECT 1" 5).2.2 404 (by decide) (by decide)⟩

/-- C6: the credential resolver returns the parsed body exactly on status
200; on every other status it fails with a failure whose message names the
requested URL, and that failure is independent of the response body. -/
theorem claim_C6_get_auth_status (instance_alias : String) {α : Type} (body : α) :
    EfdClient.get_auth instance_alias 200 body = Except.ok body
    ∧ (∀ status : Nat, status ≠ 200 →
        EfdClient.get_auth instance_alias status body
          = Except.error (PyError.runtimeError
              ("Could not connect to " ++ EfdClient.get_auth_url instance_alias) none))
    ∧ (∀ status : Nat, status ≠ 200 → ∀ other : α,
        EfdClient.get_auth instance_alias status body
          = EfdClient.get_auth instance_alias status other) := by
  refine ⟨rfl, fun status h => ?_, fun status h other => ?_⟩
  · simp [EfdClient.get_auth, h]
  · simp [EfdClient.get_auth, h]

/-- Witness for C6: with the default alias, status 200 yields the body and
status 503 yields the connection failure naming the URL. -/
theorem claim_C6_witness :
    EfdClient.get_auth "usdf_efd" 200 (7 : Nat) = Except.ok 7
    ∧ EfdClient.get_auth "usdf_efd" 503 (7 : Nat)
        = Except.error (PyError.runtimeError
            ("Could not connect to " ++ EfdClient.get_auth_url "usdf_efd") none) :=
  ⟨(claim_C6_get_auth_status "usdf_efd" (7 : Nat)).1,
   (claim_C6_get_auth_status "usdf_efd" (7 : Nat)).2.1 503 (by decide)⟩

/-- C8: the dtype of a produced descriptor is the 64-bit float for raw type
`"float"`, the 64-bit integer for `"integer"`, the string dtype for
`"string"`, and the opaque `"object"` dtype for every other raw type. -/
theorem claim_C8_field_type_mapping :
    EfdClient.mapFieldType (Value.vStr "float") = EfdClient.Dtype.dfloat64
    ∧ EfdClient.mapFieldType (Value.vStr "integer") = EfdClient.Dtype.dint64
    ∧ EfdClient.mapFieldType (Value.vStr "string") = EfdClient.Dtype.dstr
    ∧ (∀ t : Value, t ≠ Value.vStr "float" → t ≠ Value.vStr "integer" →
        t ≠ Value.vStr "string" → EfdClient.mapFieldType t = EfdClient.Dtype.dobject) := by
  refine ⟨by decide, by decide, by decide, fun t h1 h2 h3 => ?_⟩
  simp [EfdClient.mapFieldType, h1, h2, h3]

/-- Witness for C8: an unrecognized field type such as `"boolean"` maps to
the opaque dtype. -/
theorem claim_C8_witness :
    EfdClient.mapFieldType (Value.vStr "boolean") = EfdClient.Dtype.dobject :=
  claim_C8_field_type_mapping.2.2.2 (Value.vStr "boolean")
    (by decide) (by decide) (by decide)

/-- Auxiliary: tuple destructuring succeeds on a list of two-element rows
and returns the corresponding pairs in order. -/
theorem unpackPairs_map (pairs : List (Value × Value)) :
    EfdClient.unpackPairs (pairs.map (fun p => [p.1, p.2])) = Except.ok pairs := by
  induction pairs with
  | nil => rfl
  | cons p ps ih => simp [EfdClient.unpackPairs, ih, Except.map]

/-- C1: when the schema query response carries a raw field list at
`results[0].series[0].values`, `get_schema_dtypes` returns a list whose
first element is `("time", str)`, whose length is the raw list's length
plus one, and whose remaining descriptors keep the database's order. -/
theorem claim_C1_schema_header_and_order (pairs : List (Value × Value))
    (cols : List String) (tg : Option (List (String × Value))) (nm : Option Value)
    (restSeries : List Series) (restResults : List ResultObj) :
    EfdClient.get_schema_dtypes
        ⟨{ series := some
            ({ columns := cols,
               values := some (pairs.map (fun p => [p.1, p.2])),
               tags := tg, name := nm } :: restSeries) } :: restResults⟩
      = Except.ok ((Value.vStr "time", EfdClient.Dtype.dstr)
          :: pairs.map (fun p => (p.1, EfdClient.mapFieldType p.2)))
    ∧ ((Value.vStr "time", EfdClient.Dtype.dstr)
          :: pairs.map (fun p => (p.1, EfdClient.mapFieldType p.2))).head?
        = some (Value.vStr "time", EfdClient.Dtype.dstr)
    ∧ ((Value.vStr "time", EfdClient.Dtype.dstr)
          :: pairs.map (fun p => (p.1, EfdClient.mapFieldType p.2))).length
        = pairs.length + 1
    ∧ ((Value.vStr "time", EfdClient.Dtype.dstr)
          :: pairs.map (fun p => (p.1, EfdClient.mapFieldType p.2))).tail
        = pairs.map (fun p => (p.1, EfdClient.mapFieldType p.2)) := by
  refine ⟨?_, rfl, by simp, rfl⟩
  simp [EfdClient.get_schema_dtypes, unpackPairs_map, Except.map]

/-- The columns of the raw table are the series' columns. -/
theorem initFrame_columns (s : Series) : (EfdClient.initFrame s).columns = s.columns := rfl

/-- The rows of the raw table are the series' values (default empty). -/
theorem initFrame_rows (s : Series) : (EfdClient.initFrame s).rows = s.values.getD [] := rfl

/-- C3: when the series has no `"time"` column, `to_dataframe` returns the
raw table exactly as received: same columns, same rows, the default
positional index, and no name label — even when tags or a name are present. -/
theorem claim_C3_no_time_passthrough (s : Series) (h : "time" ∉ s.columns) :
    EfdClient.to_dataframe s = EfdClient.initFrame s
    ∧ (EfdClient.to_dataframe s).columns = s.columns
    ∧ (EfdClient.to_dataframe s).rows = s.values.getD []
    ∧ (EfdClient.to_dataframe s).name = none
    ∧ (EfdClient.to_dataframe s).index
        = (List.range (s.values.getD []).length).map Idx.range := by
  have h1 : EfdClient.to_dataframe s = EfdClient.initFrame s := by
    simp [EfdClient.to_dataframe, initFrame_columns, h]
  rw [h1]
  exact ⟨rfl, rfl, rfl, rfl, rfl⟩

/-- Witness for C3: a series with a tag and a name but no `"time"` column
passes through untouched. -/
theorem claim_C3_witness :
    EfdClient.to_dataframe
        { columns := ["v"], values := some [[Value.vInt 1]],
          tags := some [("a", Value.vStr "x")], name := some (Value.vStr "nm") }
      = EfdClient.initFrame
        { columns := ["v"], values := some [[Value.vInt 1]],
          tags := some [("a", Value.vStr "x")], name := some (Value.vStr "nm") } :=
  (claim_C3_no_time_passthrough _ (by decide)).1

/-- Auxiliary: overwriting column `k` of a well-formed row puts `v` at the
cell that `lookupCell` reads back. -/
theorem lookupCell_overwrite (k : String) (v : Value) :
    ∀ (cols : List String) (row : List Value), k ∈ cols → row.length = cols.length →
      EfdClient.lookupCell cols
          ((cols.zip row).map (fun p => if p.1 = k then v else p.2)) k = v := by
  intro cols
  induction cols with
  | nil => intro row hm _; exact absurd hm (List.not_mem_nil k)
  | cons c cs ih =>
    intro row hm hl
    cases row with
    | nil => simp at hl
    | cons x xs =>
      by_cases hc : c = k
      · simp [EfdClient.lookupCell, hc]
      · have hm' : k ∈ cs := by
          cases hm with
          | head => exact absurd rfl hc
          | tail _ h => exact h
        have hl' : xs.length = cs.length := by simpa using hl
        simpa [EfdClient.lookupCell, hc] using ih xs hm' hl'

/-- Auxiliary: appending a fresh column `k` with cell `v` to a well-formed
row makes `lookupCell` read back `v`. -/
theorem lookupCell_append_new (k : String) (v : Value) :
    ∀ (cols : List String) (row : List Value), k ∉ cols → row.length = cols.length →
      EfdClient.lookupCell (cols ++ [k]) (row ++ [v]) k = v := by
  intro cols
  induction cols with
  | nil =>
    intro row _ hl
    have hr : row = [] := List.eq_nil_of_length_eq_zero hl
    subst hr
    simp [EfdClient.lookupCell]
  | cons c cs ih =>
    intro row hm hl
    cases row with
    | nil => simp at hl
    | cons x xs =>
      have hc : ¬ c = k := by
        intro hck
        exact hm (by simp [hck])
      have hm' : k ∉ cs := fun h => hm (List.mem_cons_of_mem c h)
      have hl' : xs.length = cs.length := by simpa using hl
      simpa [EfdClient.lookupCell, hc] using ih xs hm' hl'

/-- Auxiliary: broadcasting a scalar into column `k` of a well-formed
dataframe makes that column constantly `v`, one cell per row. -/
theorem colValues_setCol (df : DataFrame) (k : String) (v : Value)
    (wf : ∀ row ∈ df.rows, row.length = df.columns.length) :
    EfdClient.colValues (EfdClient.setCol df k v) k
      = some (List.replicate df.rows.length v) := by
  by_cases hm : k ∈ df.columns
  · have hcols : (EfdClient.setCol df k v).columns = df.columns := by
      simp [EfdClient.setCol, hm]
    have hrows : (EfdClient.setCol df k v).rows
        = df.rows.map (fun row =>
            (df.columns.zip row).map (fun p => if p.1 = k then v else p.2)) := by
      simp [EfdClient.setCol, hm]
    rw [EfdClient.colValues, hcols, hrows, if_pos hm, List.map_map]
    refine congrArg some (List.eq_replicate_iff.mpr ⟨by simp, ?_⟩)
    intro b hb
    obtain ⟨row, hrow, rfl⟩ := List.mem_map.mp hb
    exact lookupCell_overwrite k v df.columns row hm (wf row hrow)
  · have hcols : (EfdClient.setCol df k v).columns = df.columns ++ [k] := by
      simp [EfdClient.setCol, hm]
    have hrows : (EfdClient.setCol df k v).rows
        = df.rows.map (fun row => row ++ [v]) := by
      simp [EfdClient.setCol, hm]
    rw [EfdClient.colValues, hcols, hrows, if_pos (by simp), List.map_map]
    refine congrArg some (List.eq_replicate_iff.mpr ⟨by simp, ?_⟩)
    intro b hb
    obtain ⟨row, hrow, rfl⟩ := List.mem_map.mp hb
    exact lookupCell_append_new k v df.columns row hm (wf row hrow)

/-- Auxiliary: broadcasting a scalar column never changes the row count. -/
theorem setCol_rows_len (df : DataFrame) (k : String) (v : Value) :
    (EfdClient.setCol df k v).rows.length = df.rows.length := by
  by_cases hm : k ∈ df.columns <;> simp [EfdClient.setCol, hm]

/-- Auxiliary: dropping a column never changes the row count. -/
theorem dropCol_rows_len (df : DataFrame) (k : String) :
    (EfdClient.dropCol df k).rows.length = df.rows.length := by
  simp [EfdClient.dropCol]

/-- Auxiliary: a well-formed row keeps matching the column list after the
cells paired with a dropped label are removed. -/
theorem zip_filter_len (k : String) :
    ∀ (cols : List String) (r : List Value), r.length = cols.length →
      (((cols.zip r).filter (fun p => ¬ p.1 = k)).map (fun p => p.2)).length
        = (cols.filter (fun c => ¬ c = k)).length := by
  intro cols
  induction cols with
  | nil =>
    intro r h
    have hr : r = [] := List.eq_nil_of_length_eq_zero h
    subst hr
    simp
  | cons c cs ih =>
    intro r h
    cases r with
    | nil => simp at h
    | cons x xs =>
      have h' : xs.length = cs.length := by simpa using h
      by_cases hc : c = k
      · simpa [hc] using ih xs h'
      · simpa [hc] using ih xs h'

/-- Auxiliary: dropping a column preserves well-formedness of the rows. -/
theorem dropCol_wf (df : DataFrame) (k : String)
    (wf : ∀ row ∈ df.rows, row.length = df.columns.length) :
    ∀ row ∈ (EfdClient.dropCol df k).rows,
      row.length = (EfdClient.dropCol df k).columns.length := by
  intro row hrow
  simp only [EfdClient.dropCol] at hrow ⊢
  obtain ⟨r, hr, rfl⟩ := List.mem_map.mp hrow
  exact zip_filter_len k df.columns r (wf r hr)

/-- Auxiliary: setting the name attribute does not change column reads. -/
theorem colValues_name (d : DataFrame) (nm : Option Value) (k : String) :
    EfdClient.colValues { d with name := nm } k = EfdClient.colValues d k := rfl

/-- Auxiliary: setting the name attribute does not change the rows. -/
theorem rows_name (d : DataFrame) (nm : Option Value) :
    ({ d with name := nm } : DataFrame).rows = d.rows := rfl

/-- C9 (amended): for every series whose columns contain `"time"`, whose
tags mapping is `{a: "x"}`, and whose value rows match the column list,
`to_dataframe` yields a table whose column `a` is `"x"` in every row, with
as many rows as `series.values` has entries. -/
theorem claim_C9_tag_broadcast_with_time (s : Series) (a : String) (x : String)
    (htime : "time" ∈ s.columns)
    (htags : s.tags = some [(a, Value.vStr x)])
    (wf : ∀ row ∈ s.values.getD [], row.length = s.columns.length) :
    EfdClient.colValues (EfdClient.to_dataframe s) a
      = some (List.replicate (s.values.getD []).length (Value.vStr x))
    ∧ (EfdClient.to_dataframe s).rows.length = (s.values.getD []).length := by
  obtain ⟨cols, vals, tg, nm⟩ := s
  have htg : tg = some [(a, Value.vStr x)] := htags
  subst htg
  have htime' : "time" ∈ cols := htime
  have wf' : ∀ row ∈ vals.getD [], row.length = cols.length := wf
  have wf2 : ∀ row ∈ (EfdClient.dropCol
        { index := (vals.getD []).map
            (fun row => Idx.time (EfdClient.lookupCell cols row "time")),
          columns := cols, rows := vals.getD [], name := none } "time").rows,
      row.length = (EfdClient.dropCol
        { index := (vals.getD []).map
            (fun row => Idx.time (EfdClient.lookupCell cols row "time")),
          columns := cols, rows := vals.getD [], name := none } "time").columns.length :=
    dropCol_wf _ "time" wf'
  have hcv := colValues_setCol _ a (Value.vStr x) wf2
  have hlen := dropCol_rows_len
      { index := (vals.getD []).map
          (fun row => Idx.time (EfdClient.lookupCell cols row "time")),
        columns := cols, rows := vals.getD [], name := none } "time"
  rcases nm with _ | n
  · have hbase : EfdClient.to_dataframe ⟨cols, vals, some [(a, Value.vStr x)], none⟩
        = EfdClient.setCol
            (EfdClient.dropCol
              { index := (vals.getD []).map
                  (fun row => Idx.time (EfdClient.lookupCell cols row "time")),
                columns := cols, rows := vals.getD [], name := none } "time")
            a (Value.vStr x) := by
      simp [EfdClient.to_dataframe, EfdClient.initFrame, htime']
    rw [hbase]
    exact ⟨by simp [hcv, hlen], by simp [setCol_rows_len, hlen]⟩
  · have hbase : EfdClient.to_dataframe ⟨cols, vals, some [(a, Value.vStr x)], some n⟩
        = { EfdClient.setCol
              (EfdClient.dropCol
                { index := (vals.getD []).map
                    (fun row => Idx.time (EfdClient.lookupCell cols row "time")),
                  columns := cols, rows := vals.getD [], name := none } "time")
              a (Value.vStr x) with name := some n } := by
      simp [EfdClient.to_dataframe, EfdClient.initFrame, htime']
    rw [hbase]
    exact ⟨by simp [colValues_name, hcv, hlen],
           by simp [rows_name, setCol_rows_len, hlen]⟩

/-- C9 counterexample: a series carrying tags `{a: "x"}` but no `"time"`
column is returned unchanged, so no column `a` exists at all — the claim's
universally quantified tag-broadcast property fails on it. -/
theorem claim_C9_counterexample :
    ¬ (EfdClient.colValues
          (EfdClient.to_dataframe
            { columns := ["v"], values := some [[Value.vInt 1]],
              tags := some [("a", Value.vStr "x")], name := none }) "a"
        = some (List.replicate
            (EfdClient.to_dataframe
              { columns := ["v"], values := some [[Value.vInt 1]],
                tags := some [("a", Value.vStr "x")], name := none }).rows.length
            (Value.vStr "x"))) := by
  decide

/-- Witness for C9 (amended): a two-row series with a `"time"` column and
tags `{a: "x"}` produces a table whose column `a` is `"x"` in both rows. -/
theorem claim_C9_witness :
    EfdClient.colValues
        (EfdClient.to_dataframe
          { columns := ["time", "v"],
            values := some [[Value.vStr "2021-01-01T00:00:00Z", Value.vInt 1],
                            [Value.vStr "2021-01-02T00:00:00Z", Value.vInt 2]],
            tags := some [("a", Value.vStr "x")], name := none }) "a"
      = some (List.replicate 2 (Value.vStr "x")) :=
  (claim_C9_tag_broadcast_with_time _ "a" "x" (by decide) rfl (by decide)).1
